import Mathlib

/-!
Verification development for the `uart_govee` serial-to-Govee bridge
(`govee_serial.py`).  The Python source is shallowly embedded below:
pure helpers become Lean functions, the module-level startup sequence
becomes an explicit resolution function, the body of the listening loop
becomes a step function on an explicit bridge state, and the network is
an oracle argument.  Machine integers from Python are unbounded, so they
are modelled by `Int`/`Nat` directly.
-/

namespace UartGovee

/-! ### Python string primitives

`str.strip()` with no argument removes the Unicode whitespace
characters from both ends; the set below is the one CPython uses.
`str.upper()` is modelled on its ASCII subset (all model strings and
allow-list values in this program are ASCII). -/

/-- Whitespace set of Python `str.strip()` / `str.isspace()`. -/
def pyIsSpace (c : Char) : Bool :=
  let n := c.toNat
  (9 ≤ n && n ≤ 13) || (28 ≤ n && n ≤ 31) || n == 32 || n == 133 || n == 160 ||
  n == 5760 || (8192 ≤ n && n ≤ 8202) || n == 8232 || n == 8233 ||
  n == 8239 || n == 8287 || n == 12288

/-- Python `s.strip()`: drop leading and trailing whitespace. -/
def pyStrip (s : String) : String :=
  String.mk (((s.data.dropWhile pyIsSpace).reverse.dropWhile pyIsSpace).reverse)

/-- ASCII case mapping of Python `str.upper()` at the codepoint level. -/
def upperNat (n : Nat) : Nat :=
  if 97 ≤ n ∧ n ≤ 122 then n - 32 else n

/-- Python `s.upper()` (ASCII subset). -/
def pyUpper (s : String) : String :=
  String.mk (s.data.map (fun c => Char.ofNat (upperNat c.toNat)))

/-- Character-level split used to model Python `s.split(sep)` for a
one-character separator (the program only splits on `";"` and `":"`). -/
def splitChar (sep : Char) : List Char → List (List Char)
  | [] => [[]]
  | c :: rest =>
      match splitChar sep rest, decide (c = sep) with
      | r, true => [] :: r
      | [], false => [[c]]
      | h :: t, false => (c :: h) :: t

/-- Python `s.split(sep)` for a one-character separator. -/
def pySplit (sep : Char) (s : String) : List String :=
  (splitChar sep s.data).map String.mk

/-- Python `sep.join(parts)` for a one-character separator. -/
def pyJoin (sep : Char) : List String → String
  | [] => ""
  | [x] => x
  | x :: rest => x ++ String.singleton sep ++ pyJoin sep rest

/-! ### Static device-list parsing (`parse_devices`, govee_serial.py lines 79-98)

The source iterates over `s.split(";")`, strips each chunk, skips blank
chunks, splits on `":"`, skips (with a warning) chunks with fewer than 7
tokens, and otherwise records `(":".join(parts[:6]), parts[6])`. -/

/-- Token-level part of `parse_devices`: the body after `chunk.split(":")`.
Entries with fewer than 7 colon-separated tokens are malformed (skipped,
with a warning in the source); otherwise the first six tokens joined by
colons form the device id and the seventh token the model. -/
def tokens_to_device (parts : List String) : Option (String × String) :=
  if parts.length < 7 then none
  else some (pyJoin ':' (parts.take 6), parts.getD 6 "")

/-- One chunk of the `GOVEE_DEVICES` string: strip, skip if blank,
split on colons, and apply `tokens_to_device`. -/
def parse_entry (chunk : String) : Option (String × String) :=
  let c := pyStrip chunk
  if c = "" then none
  else tokens_to_device (pySplit ':' c)

/-- `parse_devices` from govee_serial.py: semicolon-separated entries,
malformed ones skipped, order preserved. -/
def parse_devices (s : String) : List (String × String) :=
  if s = "" then []
  else (pySplit ';' s).filterMap parse_entry

/-! ### Allow-list filtering and startup device resolution
(govee_serial.py lines 101-127)

The module computes `ALLOWED_MODEL = os.getenv(...).strip().upper()` and,
when it is non-empty, keeps only devices whose uppercased model equals
it.  Resolution order: static config first; the API is consulted only
when static parsing yields nothing; `sys.exit(1)` fires exactly when both
are empty; an empty registry after filtering only warns. -/

/-- The processed `ALLOWED_MODEL` configuration value: the raw
environment string stripped and uppercased (line 115). -/
def ALLOWED_MODEL (raw : String) : String := pyUpper (pyStrip raw)

/-- Allow-list filtering (lines 117-122): when the processed allow-list
is non-empty, keep devices with `m.upper() == ALLOWED_MODEL`; otherwise
keep the list unchanged. -/
def filter_allowed (raw : String) (devs : List (String × String)) :
    List (String × String) :=
  if ALLOWED_MODEL raw ≠ "" then
    devs.filter (fun dm => pyUpper dm.2 == ALLOWED_MODEL raw)
  else devs

/-- Outcome of the startup device resolution (lines 101-127):
the final registry, whether the discovery API was consulted, and whether
the post-filter empty-registry warning fired. -/
structure Resolution where
  registry : List (String × String)
  usedApi : Bool
  warnedEmpty : Bool
deriving DecidableEq, Repr

/-- Startup resolution (lines 101-127).  `apiDevices` stands for what
`fetch_devices_from_api()` would return.  `Except.error 1` models
`sys.exit(1)`. -/
def resolve_devices (staticRaw : String) (apiDevices : List (String × String))
    (allowedRaw : String) : Except Int Resolution :=
  let fromStatic := parse_devices staticRaw
  let step1 : Except Int (List (String × String) × Bool) :=
    if fromStatic.isEmpty then
      if apiDevices.isEmpty then Except.error 1 else Except.ok (apiDevices, true)
    else Except.ok (fromStatic, false)
  match step1 with
  | Except.error c => Except.error c
  | Except.ok (devs, usedApi) =>
      let filtered := filter_allowed allowedRaw devs
      Except.ok ⟨filtered, usedApi, filtered.isEmpty⟩

/-! ### Command fan-out (`govee_turn_all`, govee_serial.py lines 129-149)

The network is an oracle mapping each control payload to its outcome:
an HTTP response with a status code, or a raised
`requests.RequestException`.  Besides the `ok_all` boolean the source
returns, the model records the per-device log line as a
`(payload, succeeded)` pair, in emission order. -/

/-- Result of one `SESSION.put` control request: either a response with
its status code and body text, or a transport-level exception. -/
inductive HttpResult where
  | response (statusCode : Int) (text : String)
  | exn (msg : String)
deriving DecidableEq, Repr

/-- The control payload built for one device (govee_serial.py lines
134-138): device id, model, and the on/off command value. -/
structure Payload where
  device : String
  model : String
  value : String
deriving DecidableEq, Repr

/-- Success test of one request: HTTP status 200, and an exception is
never a success (lines 141-148). -/
def req_ok : HttpResult → Bool
  | HttpResult.response c _ => c == 200
  | HttpResult.exn _ => false

/-- `govee_turn_all` (lines 129-149): one request per device in registry
order; a failure only clears the running `ok_all` flag and processing
continues.  The second component is the ordered per-device outcome log. -/
def govee_turn_all (net : Payload → HttpResult) :
    List (String × String) → String → Bool × List (Payload × Bool)
  | [], _ => (true, [])
  | (d, m) :: rest, value =>
      let p : Payload := ⟨d, m, value⟩
      let ok := req_ok (net p)
      let r := govee_turn_all net rest value
      (ok && r.1, (p, ok) :: r.2)

/-! ### Line normalization (`normalize_line`, govee_serial.py lines 155-157)

`b.decode("utf-8", errors="ignore")` is a total, lossy UTF-8 decode:
an invalid sequence contributes nothing and decoding resumes after the
maximal valid subpart, exactly as CPython's `ignore` error handler does.
Bytes are modelled as `Nat` values below 256.  The decoder consumes at
least one byte per emitted/skipped unit, so a fuel of `bytes.length`
makes the recursion structural (and hence kernel-reducible). -/

/-- Fuelled lossy UTF-8 decoder.  Lead bytes: ASCII `00-7F`; two-byte
`C2-DF`; three-byte `E0-EF` (with the restricted first-continuation
ranges for `E0`/`ED` that exclude overlongs and surrogates); four-byte
`F0-F4` (with the restricted ranges for `F0`/`F4`).  `80-C1` and `F5-FF`
are invalid lead bytes.  On an invalid or truncated sequence the lead
and any valid continuations seen so far are dropped and decoding resumes
at the offending byte. -/
def utf8_go : Nat → List Nat → List Char
  | 0, _ => []
  | _ + 1, [] => []
  | fuel + 1, b :: rest =>
    if b < 128 then Char.ofNat b :: utf8_go fuel rest
    else if 194 ≤ b && b ≤ 223 then
      match rest with
      | [] => []
      | c1 :: r1 =>
          if 128 ≤ c1 && c1 ≤ 191 then
            Char.ofNat ((b - 192) * 64 + (c1 - 128)) :: utf8_go fuel r1
          else utf8_go fuel rest
    else if 224 ≤ b && b ≤ 239 then
      match rest with
      | [] => []
      | c1 :: r1 =>
          if (if b == 224 then 160 else 128) ≤ c1 && c1 ≤ (if b == 237 then 159 else 191) then
            match r1 with
            | [] => []
            | c2 :: r2 =>
                if 128 ≤ c2 && c2 ≤ 191 then
                  Char.ofNat ((b - 224) * 4096 + (c1 - 128) * 64 + (c2 - 128)) ::
                    utf8_go fuel r2
                else utf8_go fuel r1
          else utf8_go fuel rest
    else if 240 ≤ b && b ≤ 244 then
      match rest with
      | [] => []
      | c1 :: r1 =>
          if (if b == 240 then 144 else 128) ≤ c1 && c1 ≤ (if b == 244 then 143 else 191) then
            match r1 with
            | [] => []
            | c2 :: r2 =>
                if 128 ≤ c2 && c2 ≤ 191 then
                  match r2 with
                  | [] => []
                  | c3 :: r3 =>
                      if 128 ≤ c3 && c3 ≤ 191 then
                        Char.ofNat
                            ((b - 240) * 262144 + (c1 - 128) * 4096 +
                              (c2 - 128) * 64 + (c3 - 128)) ::
                          utf8_go fuel r3
                      else utf8_go fuel r2
                else utf8_go fuel r1
          else utf8_go fuel rest
    else utf8_go fuel rest

/-- Python `bytes.decode("utf-8", errors="ignore")`. -/
def utf8_decode_ignore (bytes : List Nat) : List Char :=
  utf8_go bytes.length bytes

/-- `normalize_line` (govee_serial.py lines 155-157): lossy decode, then
strip surrounding whitespace and line endings. -/
def normalize_line (b : List Nat) : String :=
  pyStrip (String.mk (utf8_decode_ignore b))

/-! ### Trigger decoding and the listening-loop step
(govee_serial.py lines 152-153 and 168-197)

The body of the inner `while True` loop, after a line has been read and
normalized, is a pure function of the loop state `(lights_on_state,
last_action_ms)`, the current time `now_ms`, and the message.  The
return value of `govee_turn_all` is discarded by `main` (lines 188 and
192), which the model expresses by taking it as an argument that the
result provably does not depend on. -/

def TRIGGER_ON : String := "LIGHTS_ON"

def TRIGGER_OFF : String := "LIGHTS_OFF"

/-- Semantic event carried by one normalized line. -/
inductive Trigger where
  | noEvent
  | on
  | off
  | other (text : String)
deriving DecidableEq, Repr

/-- The TriggerDecoder: `normalize_line` followed by the exact-match
classification the loop performs (lines 176-178 and 187-197). -/
def decode_trigger (b : List Nat) : Trigger :=
  let msg := normalize_line b
  if msg = "" then Trigger.noEvent
  else if msg = TRIGGER_ON then Trigger.on
  else if msg = TRIGGER_OFF then Trigger.off
  else Trigger.other msg

/-- Mutable state of `main`'s loop: `lights_on_state` (initially `None`)
and `last_action_ms` (initially 0). -/
structure BridgeState where
  lightsOn : Option Bool
  lastActionMs : Int
deriving DecidableEq, Repr

/-- Observable effect of one loop iteration: nothing (empty message),
a `[SKIP]` line, a `govee_turn_all` dispatch, or a `[UART]` passthrough
line. -/
inductive Action where
  | noop
  | skip (text : String)
  | dispatch (value : String)
  | uart (text : String)
deriving DecidableEq, Repr

/-- One iteration of the listening loop on a normalized message
(govee_serial.py lines 176-197).  The cooldown gate (line 182) runs
before the message is classified; `dispatchOk` is the value
`govee_turn_all` would return, which `main` ignores. -/
def loop_step (cooldownMs : Int) (st : BridgeState) (nowMs : Int) (msg : String)
    (dispatchOk : Bool) : BridgeState × Action :=
  if msg = "" then (st, Action.noop)
  else if cooldownMs > 0 ∧ nowMs - st.lastActionMs < cooldownMs then (st, Action.skip msg)
  else if msg = TRIGGER_ON then (⟨some true, nowMs⟩, Action.dispatch "on")
  else if msg = TRIGGER_OFF then (⟨some false, nowMs⟩, Action.dispatch "off")
  else (st, Action.uart msg)

/-! ### Discovery-response normalization
(`fetch_devices_from_api`, govee_serial.py lines 37-76)

The HTTP round trip is outside the embedding; its parsed JSON body is
the input.  Python's `json.loads` maps JSON null to `None`, so JSON
null and a missing key are both "no value" for `dict.get`; `dict`
iteration yields the keys; iterating a non-iterable raises `TypeError`.
The function returns the extracted records together with a flag telling
whether the unexpected-shape warning was printed; a `TypeError` escape
(possible when `data["data"]["devices"]` is a truthy non-iterable) is an
`Except.error`. -/

/-- JSON values as produced by `resp.json()`. -/
inductive Json where
  | null
  | bool (b : Bool)
  | num (n : Int)
  | str (s : String)
  | arr (elems : List Json)
  | obj (fields : List (String × Json))

/-- Python `dict.get`: first binding of the key, if any (parsed JSON
objects have unique keys; first-match lookup models that). -/
def jLookup (fields : List (String × Json)) (k : String) : Option Json :=
  match fields with
  | [] => none
  | (k2, v) :: rest => if k2 = k then some v else jLookup rest k

/-- Python truthiness of a JSON value (with JSON null as `None`). -/
def pyTruthy : Json → Bool
  | Json.null => false
  | Json.bool b => b
  | Json.num n => n != 0
  | Json.str s => s ≠ ""
  | Json.arr l => !l.isEmpty
  | Json.obj f => !f.isEmpty

/-- An `x or y or ...` chain over `d.get(k)` expressions, as in lines
71-72: the value of the first lookup that is truthy; `none` when every
lookup is missing or falsy (in the source the chain then yields a falsy
value, which line 73 immediately discards). -/
def firstTruthy (fields : List (String × Json)) : List String → Option Json
  | [] => none
  | k :: rest =>
      match jLookup fields k with
      | some v => if pyTruthy v then some v else firstTruthy fields rest
      | none => firstTruthy fields rest

/-- Record extraction for one element of `devices_raw` (lines 67-75):
non-dicts are skipped; the id is `d.get("device") or d.get("deviceId")
or d.get("id")` and the model `d.get("model") or d.get("sku") or
d.get("productModel") or ""`; a record whose id or model chain comes out
falsy is dropped. -/
def extract_record (j : Json) : Option (Json × Json) :=
  match j with
  | Json.obj fields =>
      match firstTruthy fields ["device", "deviceId", "id"],
            firstTruthy fields ["model", "sku", "productModel"] with
      | some dv, some mv => some (dv, mv)
      | _, _ => none
  | _ => none

/-- Fallback over the second and third dict branches of lines 50-59:
`data["devices"]` when it is a list, else `data["data"]` when it is a
list, else the unexpected-dict-shape warning with an empty list. -/
def dict_fallback (fields : List (String × Json)) : Json × Bool :=
  match jLookup fields "devices" with
  | some (Json.arr l) => (Json.arr l, false)
  | _ =>
      match jLookup fields "data" with
      | some (Json.arr l) => (Json.arr l, false)
      | _ => (Json.arr [], true)

/-- Shape normalization of lines 49-64, returning `devices_raw` and
whether an unexpected-shape warning was printed.  In the first branch
(`data["data"]` is a dict containing `"devices"`) the source does not
require the `"devices"` value to be a list: `devices_raw` becomes
`data["data"]["devices"] or []`. -/
def normalize_shape (data : Json) : Json × Bool :=
  match data with
  | Json.obj fields =>
      match jLookup fields "data" with
      | some (Json.obj inner) =>
          match jLookup inner "devices" with
          | some v => (if pyTruthy v then v else Json.arr [], false)
          | none => dict_fallback fields
      | _ => dict_fallback fields
  | Json.arr l => (Json.arr l, false)
  | _ => (Json.arr [], true)

/-- Python `for d in x` over the possible `devices_raw` values: lists
yield their elements, strings their one-character substrings, dicts
their keys; `None`, booleans and numbers raise `TypeError`. -/
def pyIterElems : Json → Except String (List Json)
  | Json.arr l => Except.ok l
  | Json.str s => Except.ok (s.data.map (fun c => Json.str (String.mk [c])))
  | Json.obj fields => Except.ok (fields.map (fun kv => Json.str kv.1))
  | Json.null => Except.error "TypeError"
  | Json.bool _ => Except.error "TypeError"
  | Json.num _ => Except.error "TypeError"

/-- The response-processing part of `fetch_devices_from_api` (lines
49-76) on an already-parsed JSON body: `(records, warned)` on normal
return, `Except.error` when the iteration raises `TypeError`. -/
def fetch_extract (data : Json) : Except String (List (Json × Json) × Bool) :=
  let rw := normalize_shape data
  match pyIterElems rw.1 with
  | Except.error e => Except.error e
  | Except.ok elems => Except.ok (elems.filterMap extract_record, rw.2)

/-! #### Claim-side definitions for the discovery claim

`acceptedShape` formalizes the four response shapes named by the claim;
it is compared with the code's behavior. -/

/-- The four accepted response shapes as the claim words them: a dict
whose `"data"` is a dict containing a `"devices"` list, a dict with a
top-level `"devices"` list, a dict whose `"data"` is itself a list, or a
bare list. -/
def acceptedShape (data : Json) : Bool :=
  match data with
  | Json.obj fields =>
      (match jLookup fields "data" with
       | some (Json.obj inner) =>
           (match jLookup inner "devices" with
            | some (Json.arr _) => true
            | _ => false)
       | _ => false) ||
      (match jLookup fields "devices" with
       | some (Json.arr _) => true
       | _ => false) ||
      (match jLookup fields "data" with
       | some (Json.arr _) => true
       | _ => false)
  | Json.arr _ => true
  | _ => false

/-! #### Amended-claim formulation of the discovery normalization

An independent restatement of lines 37-76 following the amended claim's
words, to be proved extensionally equal to `fetch_extract`. -/

/-- The id/model chains as the amended claim words them: the first key
in the priority list whose value is present and truthy. -/
def firstTruthyKey (fields : List (String × Json)) (keys : List String) : Option Json :=
  keys.findSome? (fun k =>
    match jLookup fields k with
    | some v => if pyTruthy v then some v else none
    | none => none)

/-- Record extraction as the amended claim words it. -/
def record_amended (j : Json) : Option (Json × Json) :=
  match j with
  | Json.obj fields =>
      match firstTruthyKey fields ["device", "deviceId", "id"],
            firstTruthyKey fields ["model", "sku", "productModel"] with
      | some dv, some mv => some (dv, mv)
      | _, _ => none
  | _ => none

/-- Second and third dict branches per the amended claim. -/
def amended_fallback (fields : List (String × Json)) :
    Except String (List (Json × Json) × Bool) :=
  match jLookup fields "devices" with
  | some (Json.arr l) => Except.ok (l.filterMap record_amended, false)
  | _ =>
      match jLookup fields "data" with
      | some (Json.arr l) => Except.ok (l.filterMap record_amended, false)
      | _ => Except.ok ([], true)

/-- The discovery normalization as the amended claim words it: the first
dict branch fires whenever `data["data"]` is a dict containing a
`"devices"` key, list or not — a falsy value acts as an empty list,
a string or dict value yields no records, and a truthy number or
boolean raises `TypeError`; the unexpected-shape warning fires exactly
in the remaining dict case and the non-dict non-list case. -/
def fetch_extract_amended (data : Json) : Except String (List (Json × Json) × Bool) :=
  match data with
  | Json.obj fields =>
      (match jLookup fields "data" with
       | some (Json.obj inner) =>
           (match jLookup inner "devices" with
            | some (Json.arr l) => Except.ok (l.filterMap record_amended, false)
            | some (Json.str _) => Except.ok ([], false)
            | some (Json.obj _) => Except.ok ([], false)
            | some Json.null => Except.ok ([], false)
            | some (Json.bool b) =>
                if b then Except.error "TypeError" else Except.ok ([], false)
            | some (Json.num n) =>
                if n != 0 then Except.error "TypeError" else Except.ok ([], false)
            | none => amended_fallback fields)
       | _ => amended_fallback fields)
  | Json.arr l => Except.ok (l.filterMap record_amended, false)
  | _ => Except.ok ([], true)

/-! ### Helper lemmas -/

/-- One ASCII uppercase step is idempotent at the character level. -/
theorem upperChar_idem (c : Char) :
    Char.ofNat (upperNat (Char.ofNat (upperNat c.toNat)).toNat) =
      Char.ofNat (upperNat c.toNat) := by
  by_cases h : 97 ≤ c.toNat ∧ c.toNat ≤ 122
  · have H : ∀ n : Nat, 97 ≤ n → n ≤ 122 →
        Char.ofNat (upperNat (Char.ofNat (upperNat n)).toNat) =
          Char.ofNat (upperNat n) := by
      intro n h1 h2
      interval_cases n <;> decide
    have h3 := H c.toNat h.1 h.2
    simpa using h3
  · have h1 : upperNat c.toNat = c.toNat := by
      unfold upperNat
      exact if_neg h
    rw [h1, Char.ofNat_toNat, h1, Char.ofNat_toNat]

/-- Python `upper` (ASCII model) is idempotent. -/
theorem pyUpper_idem (s : String) : pyUpper (pyUpper s) = pyUpper s := by
  unfold pyUpper
  show String.mk (List.map _ (List.map _ s.data)) = _
  rw [List.map_map]
  exact congrArg String.mk (List.map_congr_left fun c _ => upperChar_idem c)

/-- The claim-side key chain agrees with the code-side one. -/
theorem firstTruthyKey_eq (fields : List (String × Json)) (keys : List String) :
    firstTruthyKey fields keys = firstTruthy fields keys := by
  induction keys with
  | nil => rfl
  | cons k rest ih =>
      simp only [firstTruthyKey, List.findSome?_cons] at ih ⊢
      cases hk : jLookup fields k with
      | none => simpa [firstTruthy, hk] using ih
      | some v =>
          by_cases hv : pyTruthy v
          · simp [firstTruthy, hk, hv]
          · simpa [firstTruthy, hk, hv] using ih

/-- The claim-side record extraction agrees with the code-side one. -/
theorem record_amended_eq (j : Json) : record_amended j = extract_record j := by
  cases j <;> simp [record_amended, extract_record, firstTruthyKey_eq]

/-- Record extraction agrees over whole lists. -/
theorem filterMap_record_eq (l : List Json) :
    l.filterMap extract_record = l.filterMap record_amended := by
  induction l with
  | nil => rfl
  | cons h t ih => simp [List.filterMap_cons, record_amended_eq, ih]

/-- Iterating a string yields one-character strings, none of which is a
dict, so record extraction drops them all. -/
theorem filterMap_str_none (l : List Char) :
    (l.map (fun c => Json.str (String.mk [c]))).filterMap extract_record = [] := by
  induction l with
  | nil => rfl
  | cons c t ih => simp [List.filterMap_cons, extract_record, ih]

/-- Iterating a dict yields its keys (strings), which record extraction
drops as well. -/
theorem filterMap_keys_none (fs : List (String × Json)) :
    (fs.map (fun kv => Json.str kv.1)).filterMap extract_record = [] := by
  induction fs with
  | nil => rfl
  | cons kv t ih => simp [List.filterMap_cons, extract_record, ih]

/-! ### Claim theorems -/

/-- C6: static config parsing.  `parse_devices` maps each well-formed
semicolon-separated entry `b0:b1:b2:b3:b4:b5:MODEL` to the device
`(b0:b1:b2:b3:b4:b5, MODEL)`, so the two-entry example yields exactly
those two devices in order; an entry with fewer than 7 colon-separated
tokens is skipped and parsing continues with the remaining entries, so
`"bad;aa:bb:cc:dd:ee:ff:H6104"` yields exactly one device. -/
theorem parse_devices_spec :
    parse_devices "aa:bb:cc:dd:ee:ff:H6104;11:22:33:44:55:66:H6003" =
        [("aa:bb:cc:dd:ee:ff", "H6104"), ("11:22:33:44:55:66", "H6003")] ∧
    parse_devices "bad;aa:bb:cc:dd:ee:ff:H6104" = [("aa:bb:cc:dd:ee:ff", "H6104")] ∧
    ∀ (a b : List String) (bad : String),
      (pySplit ':' (pyStrip bad)).length < 7 →
      (a ++ bad :: b).filterMap parse_entry =
        a.filterMap parse_entry ++ b.filterMap parse_entry := by
  refine ⟨by decide, by decide, ?_⟩
  intro a b bad hlen
  have hnone : parse_entry bad = none := by
    unfold parse_entry tokens_to_device
    by_cases h0 : pyStrip bad = ""
    · simp [h0]
    · simp [h0, hlen]
  simp [List.filterMap_append, List.filterMap_cons, hnone]

/-- Witness for C6 at a concrete malformed middle entry. -/
theorem parse_devices_spec_witness :
    (pySplit ':' (pyStrip "bad")).length < 7 ∧
    (["aa:bb:cc:dd:ee:ff:H6104"] ++ "bad" :: ["11:22:33:44:55:66:H6003"]).filterMap
        parse_entry =
      ["aa:bb:cc:dd:ee:ff:H6104"].filterMap parse_entry ++
        ["11:22:33:44:55:66:H6003"].filterMap parse_entry :=
  ⟨by decide, parse_devices_spec.2.2 ["aa:bb:cc:dd:ee:ff:H6104"]
    ["11:22:33:44:55:66:H6003"] "bad" (by decide)⟩

/-- C10: an entry with more than 7 colon-separated tokens is accepted:
the first six tokens joined by colons become the device id, the seventh
token the model, and every token after the seventh is ignored (the
result only depends on the first seven tokens). -/
theorem tokens_extra_ignored (ts : List String) (h : 7 ≤ ts.length) :
    tokens_to_device ts = some (pyJoin ':' (ts.take 6), ts.getD 6 "") ∧
    tokens_to_device ts = tokens_to_device (ts.take 7) ∧
    parse_entry "aa:bb:cc:dd:ee:ff:H6104:junk:junk2" =
      some ("aa:bb:cc:dd:ee:ff", "H6104") := by
  have hlen7 : (ts.take 7).length = 7 := by
    simp [List.length_take]
    omega
  refine ⟨?_, ?_, by decide⟩
  · unfold tokens_to_device
    rw [if_neg (by omega)]
  · unfold tokens_to_device
    rw [if_neg (by omega), if_neg (by omega)]
    have h1 : (ts.take 7).take 6 = ts.take 6 := by
      rw [List.take_take]
      norm_num
    have h2 : (ts.take 7).getD 6 "" = ts.getD 6 "" := by
      unfold List.getD
      rw [List.get?_eq_getElem?, List.get?_eq_getElem?,
        List.getElem?_take_of_lt (by omega : (6 : Nat) < 7)]
    rw [h1, h2]

/-- Witness for C10 on an 8-token entry. -/
theorem tokens_extra_ignored_witness :
    7 ≤ (["aa", "bb", "cc", "dd", "ee", "ff", "H6104", "junk"] : List String).length ∧
    tokens_to_device ["aa", "bb", "cc", "dd", "ee", "ff", "H6104", "junk"] =
      some (pyJoin ':' (["aa", "bb", "cc", "dd", "ee", "ff", "H6104", "junk"].take 6),
        ["aa", "bb", "cc", "dd", "ee", "ff", "H6104", "junk"].getD 6 "") :=
  ⟨by decide,
    (tokens_extra_ignored ["aa", "bb", "cc", "dd", "ee", "ff", "H6104", "junk"]
      (by decide)).1⟩

/-- C5: allow-list filtering.  With a non-empty processed allow-list the
result is exactly the sublist of devices whose model matches the
allow-list value case-insensitively (order preserved, as a
`List.filter`); with an empty allow-list filtering is the identity. -/
theorem filter_allowed_spec (raw : String) (devs : List (String × String)) :
    (ALLOWED_MODEL raw ≠ "" →
      filter_allowed raw devs =
        devs.filter (fun dm => pyUpper dm.2 == pyUpper (ALLOWED_MODEL raw))) ∧
    (ALLOWED_MODEL raw = "" → filter_allowed raw devs = devs) := by
  have hidem : pyUpper (ALLOWED_MODEL raw) = ALLOWED_MODEL raw := pyUpper_idem _
  constructor
  · intro h
    unfold filter_allowed
    rw [if_pos h, hidem]
  · intro h
    unfold filter_allowed
    rw [if_neg (by simp [h])]

/-- Witness for C5: the spec's example (`"H6006"` over models
`["H6006", "H6003", "h6006"]`) keeps the first and third devices. -/
theorem filter_allowed_spec_witness :
    ALLOWED_MODEL "H6006" ≠ "" ∧
    filter_allowed "H6006" [("d1", "H6006"), ("d2", "H6003"), ("d3", "h6006")] =
      [("d1", "H6006"), ("d2", "H6003"), ("d3", "h6006")].filter
        (fun dm => pyUpper dm.2 == pyUpper (ALLOWED_MODEL "H6006")) ∧
    filter_allowed "H6006" [("d1", "H6006"), ("d2", "H6003"), ("d3", "h6006")] =
      [("d1", "H6006"), ("d3", "h6006")] :=
  ⟨by decide,
    (filter_allowed_spec "H6006" [("d1", "H6006"), ("d2", "H6003"), ("d3", "h6006")]).1
      (by decide),
    by decide⟩

/-- C4: device resolution order and fatality.  When static parsing
yields devices the API is never consulted; the API result is used only
when static parsing is empty; `sys.exit(1)` happens exactly when both
sources are empty before filtering; and a registry that becomes empty
only after allow-list filtering still resolves (with the warning flag),
so the bridge starts. -/
theorem resolve_devices_spec (staticRaw : String) (api : List (String × String))
    (raw : String) :
    (parse_devices staticRaw ≠ [] →
      resolve_devices staticRaw api raw =
        Except.ok ⟨filter_allowed raw (parse_devices staticRaw), false,
          (filter_allowed raw (parse_devices staticRaw)).isEmpty⟩) ∧
    (parse_devices staticRaw = [] → api ≠ [] →
      resolve_devices staticRaw api raw =
        Except.ok ⟨filter_allowed raw api, true, (filter_allowed raw api).isEmpty⟩) ∧
    (resolve_devices staticRaw api raw = Except.error 1 ↔
      parse_devices staticRaw = [] ∧ api = []) := by
  by_cases h1 : parse_devices staticRaw = []
  · by_cases h2 : api = []
    · exact ⟨fun hc => absurd h1 hc, fun _ hc => absurd h2 hc,
        by simp [resolve_devices, List.isEmpty_iff, h1, h2]⟩
    · refine ⟨fun hc => absurd h1 hc, fun _ _ => ?_, ?_⟩
      · simp [resolve_devices, List.isEmpty_iff, h1, h2]
      · simp [resolve_devices, List.isEmpty_iff, h1, h2]
  · refine ⟨fun _ => ?_, fun hc => absurd hc h1, ?_⟩
    · simp [resolve_devices, List.isEmpty_iff, h1]
    · simp [resolve_devices, List.isEmpty_iff, h1]

/-- Witness for C4: empty static config, one discovered device of a
model the allow-list rejects — resolution still succeeds (post-filter
emptiness is non-fatal, only warned about). -/
theorem resolve_devices_spec_witness :
    parse_devices "" = [] ∧ ([("d", "H6104")] : List (String × String)) ≠ [] ∧
    resolve_devices "" [("d", "H6104")] "H6006" =
      Except.ok ⟨filter_allowed "H6006" [("d", "H6104")], true,
        (filter_allowed "H6006" [("d", "H6104")]).isEmpty⟩ ∧
    resolve_devices "" [("d", "H6104")] "H6006" = Except.ok ⟨[], true, true⟩ :=
  ⟨by decide, by decide,
    (resolve_devices_spec "" [("d", "H6104")] "H6006").2.1 (by decide) (by decide), rfl⟩

/-- C3: `govee_turn_all` issues exactly one request per device in
registry order, each device's `(payload, succeeded)` outcome depends
only on its own response (no short-circuit, no retry — devices after a
failure are still processed), and the returned flag is `true` iff every
per-device request returned HTTP 200.  The function is total: transport
exceptions are values of the oracle, so it never raises. -/
theorem govee_turn_all_spec (net : Payload → HttpResult)
    (devices : List (String × String)) (value : String) :
    ((govee_turn_all net devices value).2.length = devices.length) ∧
    (∀ i : Nat, (govee_turn_all net devices value).2.get? i =
        (devices.get? i).map (fun dm =>
          ((⟨dm.1, dm.2, value⟩ : Payload), req_ok (net ⟨dm.1, dm.2, value⟩)))) ∧
    ((govee_turn_all net devices value).1 = true ↔
      ∀ pr ∈ (govee_turn_all net devices value).2, pr.2 = true) := by
  induction devices with
  | nil =>
      refine ⟨rfl, fun i => by cases i <;> rfl, by simp [govee_turn_all]⟩
  | cons hd tl ih =>
      obtain ⟨d, m⟩ := hd
      obtain ⟨ih1, ih2, ih3⟩ := ih
      refine ⟨?_, ?_, ?_⟩
      · simp only [govee_turn_all, List.length_cons]
        rw [ih1]
      · intro i
        cases i with
        | zero => rfl
        | succ j => simpa only [govee_turn_all, List.get?] using ih2 j
      · simp only [govee_turn_all, Bool.and_eq_true, List.forall_mem_cons]
        rw [ih3]

/-- Witness for C3: a middle-device transport exception leaves the
other results intact, the overall flag false, and one request per
device. -/
theorem govee_turn_all_spec_witness :
    (govee_turn_all
        (fun p => if p.device = "d2" then HttpResult.exn "timeout"
          else HttpResult.response 200 "")
        [("d1", "H6006"), ("d2", "H6006"), ("d3", "H6006")] "on").2.length = 3 := by
  have h := (govee_turn_all_spec
    (fun p => if p.device = "d2" then HttpResult.exn "timeout"
      else HttpResult.response 200 "")
    [("d1", "H6006"), ("d2", "H6006"), ("d3", "H6006")] "on").1
  simpa using h

/-- C1: cooldown gate.  If trigger `m1` was accepted (dispatched) at
time `t`, then an ON/OFF trigger `m2` arriving at `t + d` with
`0 < d < cooldown` is skipped — no dispatch, state exactly as `m1` left
it — while with `d ≥ cooldown` it dispatches the corresponding command
and sets `lastActionMs` to `t + d`; both outcomes are independent of the
dispatch results `ok1`, `ok2`, which are universally quantified. -/
theorem cooldown_gate (cd t d : Int) (st : BridgeState) (m1 m2 v1 : String)
    (ok1 ok2 : Bool) (hm2 : m2 = TRIGGER_ON ∨ m2 = TRIGGER_OFF)
    (hacc : (loop_step cd st t m1 ok1).2 = Action.dispatch v1) :
    ((loop_step cd st t m1 ok1).1.lastActionMs = t) ∧
    (0 < d → d < cd →
      loop_step cd (loop_step cd st t m1 ok1).1 (t + d) m2 ok2 =
        ((loop_step cd st t m1 ok1).1, Action.skip m2)) ∧
    (cd ≤ d →
      (loop_step cd (loop_step cd st t m1 ok1).1 (t + d) m2 ok2).1.lastActionMs = t + d ∧
      (loop_step cd (loop_step cd st t m1 ok1).1 (t + d) m2 ok2).2 =
        Action.dispatch (if m2 = TRIGGER_ON then "on" else "off")) := by
  have hne2 : m2 ≠ "" := by
    rcases hm2 with h | h <;> rw [h] <;> decide
  have hlast : (loop_step cd st t m1 ok1).1.lastActionMs = t := by
    unfold loop_step at hacc ⊢
    split_ifs at hacc ⊢ <;> simp_all
  refine ⟨hlast, ?_, ?_⟩
  · intro hd1 hd2
    generalize hg : (loop_step cd st t m1 ok1).1 = st1
    rw [hg] at hlast
    unfold loop_step
    rw [hlast]
    have hcond : cd > 0 ∧ t + d - t < cd := ⟨by omega, by omega⟩
    rw [if_neg hne2, if_pos hcond]
  · intro hd
    generalize hg : (loop_step cd st t m1 ok1).1 = st1
    rw [hg] at hlast
    have hgate : ¬(cd > 0 ∧ t + d - st1.lastActionMs < cd) := by
      rw [hlast]
      intro hc
      omega
    rcases hm2 with h | h
    · subst h
      unfold loop_step
      rw [if_neg hne2, if_neg hgate, if_pos rfl, if_pos rfl]
      exact ⟨rfl, rfl⟩
    · subst h
      have hOnOff : TRIGGER_OFF ≠ TRIGGER_ON := by decide
      unfold loop_step
      rw [if_neg hne2, if_neg hgate, if_neg hOnOff, if_pos rfl, if_neg hOnOff]
      exact ⟨rfl, rfl⟩

/-- Witness for C1: `LIGHTS_ON` accepted at 1000, `LIGHTS_OFF` 300 ms
later with an 800 ms cooldown is skipped and the state is untouched. -/
theorem cooldown_gate_witness :
    loop_step 800 (loop_step 800 ⟨none, 0⟩ 1000 "LIGHTS_ON" true).1 1300 "LIGHTS_OFF"
        false =
      ((loop_step 800 ⟨none, 0⟩ 1000 "LIGHTS_ON" true).1, Action.skip "LIGHTS_OFF") :=
  (cooldown_gate 800 1000 300 ⟨none, 0⟩ "LIGHTS_ON" "LIGHTS_OFF" "on" true false
    (Or.inr rfl) (by decide)).2.1 (by decide) (by decide)

/-- C2 counterexample: with an 800 ms cooldown and only 500 ms elapsed
since the last action, the OTHER line `"42cm"` is consumed by the
cooldown gate — the loop prints a `[SKIP]` line, not the `[UART]`
passthrough line the claim requires. -/
theorem other_passthrough_cex :
    (loop_step 800 ⟨none, 1000⟩ 1500 "42cm" true).2 = Action.skip "42cm" ∧
    (loop_step 800 ⟨none, 1000⟩ 1500 "42cm" true).2 ≠ Action.uart "42cm" := by
  decide

/-- C2 amended: an OTHER line never updates `lastActionTimestamp` and
leaves the bridge state unchanged, but it is subject to the cooldown
gate: within an active cooldown window it is logged as a cooldown skip,
and only otherwise as passthrough text. -/
theorem other_no_state_update (cd now : Int) (st : BridgeState) (msg : String)
    (ok : Bool) (hne : msg ≠ "") (hon : msg ≠ TRIGGER_ON) (hoff : msg ≠ TRIGGER_OFF) :
    ((loop_step cd st now msg ok).1 = st) ∧
    (cd > 0 → now - st.lastActionMs < cd →
      (loop_step cd st now msg ok).2 = Action.skip msg) ∧
    (¬(cd > 0 ∧ now - st.lastActionMs < cd) →
      (loop_step cd st now msg ok).2 = Action.uart msg) := by
  refine ⟨?_, ?_, ?_⟩
  · unfold loop_step
    split_ifs <;> simp_all
  · intro h1 h2
    unfold loop_step
    rw [if_neg hne, if_pos ⟨h1, h2⟩]
  · intro h
    unfold loop_step
    rw [if_neg hne, if_neg h, if_neg hon, if_neg hoff]

/-- Witness for the amended C2 at the counterexample's input. -/
theorem other_no_state_update_witness :
    (loop_step 800 ⟨none, 1000⟩ 1500 "42cm" true).1 = ⟨none, 1000⟩ :=
  (other_no_state_update 800 1500 ⟨none, 1000⟩ "42cm" true (by decide) (by decide)
    (by decide)).1

/-- C9: with a zero or negative configured cooldown the gate is fully
disabled — no iteration of the loop ever produces a cooldown skip,
however close together triggers arrive. -/
theorem cooldown_disabled (cd : Int) (hcd : cd ≤ 0) (st : BridgeState) (now : Int)
    (msg : String) (ok : Bool) :
    ∀ text : String, (loop_step cd st now msg ok).2 ≠ Action.skip text := by
  intro text
  unfold loop_step
  have hgate : ¬(cd > 0 ∧ now - st.lastActionMs < cd) := by
    intro hc
    omega
  split_ifs <;> simp_all

/-- Witness for C9: cooldown 0, consecutive timestamps — not a skip. -/
theorem cooldown_disabled_witness :
    (loop_step 0 ⟨none, 1000⟩ 1001 "LIGHTS_ON" true).2 ≠ Action.skip "LIGHTS_ON" :=
  cooldown_disabled 0 (by decide) ⟨none, 1000⟩ 1001 "LIGHTS_ON" true "LIGHTS_ON"

/-- C8: trigger decoding.  Decoding is a total lossy UTF-8 decode (an
invalid byte is dropped, never fatal) followed by trimming; an
empty-after-trim line is a no-event and advances no state; the exact
texts `"LIGHTS_ON"`/`"LIGHTS_OFF"` decode to ON/OFF; any other non-empty
text decodes to OTHER carrying that text. -/
theorem decode_trigger_spec :
    decode_trigger [76, 73, 71, 72, 84, 83, 95, 79, 78, 13, 10] = Trigger.on ∧
    decode_trigger [32, 32] = Trigger.noEvent ∧
    decode_trigger [52, 50, 99, 109] = Trigger.other "42cm" ∧
    decode_trigger [255, 76, 73, 71, 72, 84, 83, 95, 79, 78] = Trigger.on ∧
    (∀ (cd : Int) (st : BridgeState) (now : Int) (ok : Bool),
        loop_step cd st now "" ok = (st, Action.noop)) ∧
    (∀ b : List Nat, normalize_line b ≠ "" → normalize_line b ≠ TRIGGER_ON →
        normalize_line b ≠ TRIGGER_OFF →
        decode_trigger b = Trigger.other (normalize_line b)) := by
  refine ⟨by decide, by decide, by decide, by decide, ?_, ?_⟩
  · intro cd st now ok
    unfold loop_step
    rw [if_pos rfl]
  · intro b h1 h2 h3
    simp only [decode_trigger]
    rw [if_neg h1, if_neg h2, if_neg h3]

/-- Witness for C8's generic OTHER clause at the bytes of `"42cm"`. -/
theorem decode_trigger_spec_witness :
    decode_trigger [52, 50, 99, 109] = Trigger.other (normalize_line [52, 50, 99, 109]) :=
  decode_trigger_spec.2.2.2.2.2 [52, 50, 99, 109] (by decide) (by decide) (by decide)

/-- C7 counterexample: `data = dict with "data" a dict whose "devices"
field is the string "ab"` is none of the four accepted shapes the claim
enumerates, yet the code takes the first dict branch and returns zero
devices with NO warning — the claim requires a warning naming the
shape/type for every other shape. -/
theorem discovery_shape_cex :
    acceptedShape (Json.obj [("data", Json.obj [("devices", Json.str "ab")])]) = false ∧
    fetch_extract (Json.obj [("data", Json.obj [("devices", Json.str "ab")])]) =
      Except.ok ([], false) :=
  ⟨rfl, rfl⟩

/-- C7 amended: the response processing equals the amended-claim
formulation `fetch_extract_amended` — the first dict branch fires
whenever `data["data"]` is a dict containing a `"devices"` key, even a
non-list one (falsy values act as an empty list, string/dict values
yield zero records, truthy numbers or booleans raise `TypeError`); the
unexpected-shape warning fires exactly for a dict matching no branch or
a non-dict non-list body; per record, the id is the first present and
truthy value among `"device"`, `"deviceId"`, `"id"` and the model the
first among `"model"`, `"sku"`, `"productModel"`, and a record whose id
or model chain resolves falsy is dropped while the rest continue. -/
theorem discovery_extract_spec (data : Json) :
    fetch_extract data = fetch_extract_amended data := by
  have hfb : ∀ fields : List (String × Json),
      (match pyIterElems (dict_fallback fields).1 with
       | Except.error e => Except.error e
       | Except.ok elems =>
           Except.ok (elems.filterMap extract_record, (dict_fallback fields).2)) =
        amended_fallback fields := by
    intro fields
    unfold dict_fallback amended_fallback
    cases h1 : jLookup fields "devices" with
    | none =>
        cases h2 : jLookup fields "data" with
        | none => simp [pyIterElems]
        | some v2 => cases v2 <;> simp [pyIterElems, filterMap_record_eq]
    | some v1 =>
        cases v1 with
        | arr l => simp [pyIterElems, filterMap_record_eq]
        | null =>
            cases h2 : jLookup fields "data" with
            | none => simp [pyIterElems]
            | some v2 => cases v2 <;> simp [pyIterElems, filterMap_record_eq]
        | bool b =>
            cases h2 : jLookup fields "data" with
            | none => simp [pyIterElems]
            | some v2 => cases v2 <;> simp [pyIterElems, filterMap_record_eq]
        | num n =>
            cases h2 : jLookup fields "data" with
            | none => simp [pyIterElems]
            | some v2 => cases v2 <;> simp [pyIterElems, filterMap_record_eq]
        | str s =>
            cases h2 : jLookup fields "data" with
            | none => simp [pyIterElems]
            | some v2 => cases v2 <;> simp [pyIterElems, filterMap_record_eq]
        | obj f2 =>
            cases h2 : jLookup fields "data" with
            | none => simp [pyIterElems]
            | some v2 => cases v2 <;> simp [pyIterElems, filterMap_record_eq]
  cases data with
  | null => rfl
  | bool b => rfl
  | num n => rfl
  | str s => rfl
  | arr l => simp [fetch_extract, normalize_shape, pyIterElems, fetch_extract_amended,
      filterMap_record_eq]
  | obj fields =>
      cases hd : jLookup fields "data" with
      | none =>
          simp only [fetch_extract, normalize_shape, fetch_extract_amended, hd]
          exact hfb fields
      | some dv =>
          cases dv with
          | null =>
              simp only [fetch_extract, normalize_shape, fetch_extract_amended, hd]
              exact hfb fields
          | bool b =>
              simp only [fetch_extract, normalize_shape, fetch_extract_amended, hd]
              exact hfb fields
          | num n =>
              simp only [fetch_extract, normalize_shape, fetch_extract_amended, hd]
              exact hfb fields
          | str s =>
              simp only [fetch_extract, normalize_shape, fetch_extract_amended, hd]
              exact hfb fields
          | arr l =>
              simp only [fetch_extract, normalize_shape, fetch_extract_amended, hd]
              exact hfb fields
          | obj inner =>
              cases hdev : jLookup inner "devices" with
              | none =>
                  simp only [fetch_extract, normalize_shape, fetch_extract_amended, hd, hdev]
                  exact hfb fields
              | some v =>
                  cases v with
                  | null =>
                      simp [fetch_extract, normalize_shape, fetch_extract_amended, hd,
                        hdev, pyTruthy, pyIterElems]
                  | bool b =>
                      cases b <;>
                        simp [fetch_extract, normalize_shape, fetch_extract_amended, hd,
                          hdev, pyTruthy, pyIterElems]
                  | num n =>
                      by_cases hn : n = 0 <;>
                        simp [fetch_extract, normalize_shape, fetch_extract_amended, hd,
                          hdev, pyTruthy, pyIterElems, hn]
                  | str s =>
                      by_cases hs : s = ""
                      · simp [fetch_extract, normalize_shape, fetch_extract_amended, hd,
                          hdev, pyTruthy, pyIterElems, hs]
                      · simp [fetch_extract, normalize_shape, fetch_extract_amended, hd,
                          hdev, pyTruthy, pyIterElems, hs]
                        exact fun a _ => rfl
                  | arr l =>
                      cases l with
                      | nil =>
                          simp [fetch_extract, normalize_shape, fetch_extract_amended,
                            hd, hdev, pyTruthy, pyIterElems]
                      | cons x xs =>
                          simp [fetch_extract, normalize_shape, fetch_extract_amended,
                            hd, hdev, pyTruthy, pyIterElems, filterMap_record_eq]
                  | obj f2 =>
                      cases f2 with
                      | nil =>
                          simp [fetch_extract, normalize_shape, fetch_extract_amended,
                            hd, hdev, pyTruthy, pyIterElems]
                      | cons kv rest =>
                          simp [fetch_extract, normalize_shape, fetch_extract_amended,
                            hd, hdev, pyTruthy, pyIterElems]
                          refine ⟨rfl, ?_⟩
                          rintro a x x1 h rfl
                          rfl

/-- Witness for the amended C7 on a concrete mixed response: one good
record, one record with a falsy `"device"` that falls through to
`"deviceId"`, and one record dropped for want of a truthy model. -/
theorem discovery_extract_spec_witness :
    fetch_extract
        (Json.obj [("data", Json.obj [("devices", Json.arr
          [Json.obj [("device", Json.str "AA"), ("model", Json.str "H6006")],
           Json.obj [("device", Json.str ""), ("deviceId", Json.str "BB"),
             ("sku", Json.str "H6003")],
           Json.obj [("device", Json.str "CC"), ("model", Json.str "")]]) ])]) =
      fetch_extract_amended
        (Json.obj [("data", Json.obj [("devices", Json.arr
          [Json.obj [("device", Json.str "AA"), ("model", Json.str "H6006")],
           Json.obj [("device", Json.str ""), ("deviceId", Json.str "BB"),
             ("sku", Json.str "H6003")],
           Json.obj [("device", Json.str "CC"), ("model", Json.str "")]]) ])]) :=
  discovery_extract_spec
    (Json.obj [("data", Json.obj [("devices", Json.arr
      [Json.obj [("device", Json.str "AA"), ("model", Json.str "H6006")],
       Json.obj [("device", Json.str ""), ("deviceId", Json.str "BB"),
         ("sku", Json.str "H6003")],
       Json.obj [("device", Json.str "CC"), ("model", Json.str "")]]) ])])

end UartGovee

namespace UartGoveeChecks
open UartGovee

example :
    parse_devices "aa:bb:cc:dd:ee:ff:H6104;11:22:33:44:55:66:H6003" =
      [("aa:bb:cc:dd:ee:ff", "H6104"), ("11:22:33:44:55:66", "H6003")] := by
  decide

example : parse_devices "bad;aa:bb:cc:dd:ee:ff:H6104" =
    [("aa:bb:cc:dd:ee:ff", "H6104")] := by decide

example : parse_entry "aa:bb:cc:dd:ee:ff:H6104:junk:junk2" =
    some ("aa:bb:cc:dd:ee:ff", "H6104") := by decide

example : pyStrip "  LIGHTS_ON\r\n " = "LIGHTS_ON" := by decide

example : pyUpper "h6006x" = "H6006X" := by decide

example :
    filter_allowed "H6006" [("d1", "H6006"), ("d2", "H6003"), ("d3", "h6006")] =
      [("d1", "H6006"), ("d3", "h6006")] := by decide

example : filter_allowed "" [("d1", "H6006"), ("d2", "H6003")] =
    [("d1", "H6006"), ("d2", "H6003")] := by decide

example :
    resolve_devices "" [("d", "H6104")] "H6006" =
      Except.ok ⟨[], true, true⟩ := rfl

example : resolve_devices "" [] "H6006" = Except.error 1 := rfl

example :
    govee_turn_all
      (fun p => if p.device = "d2" then HttpResult.response 429 "rate" else HttpResult.response 200 "")
      [("d1", "H6006"), ("d2", "H6006"), ("d3", "H6006")] "on" =
    (false, [(⟨"d1", "H6006", "on"⟩, true), (⟨"d2", "H6006", "on"⟩, false),
             (⟨"d3", "H6006", "on"⟩, true)]) := by decide

-- bytes of "LIGHTS_ON\r\n"
example : decode_trigger [76, 73, 71, 72, 84, 83, 95, 79, 78, 13, 10] = Trigger.on := by
  decide

example : decode_trigger [32, 32] = Trigger.noEvent := by decide

-- bytes of "42cm"
example : decode_trigger [52, 50, 99, 109] = Trigger.other "42cm" := by decide

-- an invalid byte is dropped, not fatal
example : decode_trigger [255, 76, 73, 71, 72, 84, 83, 95, 79, 78] = Trigger.on := by
  decide

-- two-byte sequence, then maximal-subpart skipping: E2 82 28 -> drop E2 82, keep '('
example : utf8_decode_ignore [0xC3, 0xA9] = [Char.ofNat 0xE9] := by decide

example : utf8_decode_ignore [0xE2, 0x82, 0x28] = ['('] := by decide

example :
    loop_step 800 ⟨none, 1000⟩ 1500 "42cm" true = (⟨none, 1000⟩, Action.skip "42cm") := by
  decide

example :
    loop_step 800 ⟨none, 1000⟩ 1900 "LIGHTS_OFF" true =
      (⟨some false, 1900⟩, Action.dispatch "off") := by decide

example : loop_step 0 ⟨none, 1000⟩ 1001 "LIGHTS_ON" false =
    (⟨some true, 1001⟩, Action.dispatch "on") := by decide

-- more CPython lossy-decode cross-checks
example : utf8_decode_ignore [0xFF, 76] = ['L'] := by decide

example : utf8_decode_ignore [0xE0, 0x80, 65] = ['A'] := by decide

example : utf8_decode_ignore [0xF0, 0x90, 0x80] = [] := by decide

example : utf8_decode_ignore [0xF4, 0x90, 0x80, 0x80] = [] := by decide

example : utf8_decode_ignore [0xED, 0xA0, 0x80, 66] = ['B'] := by decide

example : utf8_decode_ignore [0xC2] = [] := by decide

example : utf8_decode_ignore [0xE2, 0x82, 0xAC] = [Char.ofNat 0x20AC] := by decide

-- discovery normalization scratch checks
example :
    fetch_extract
        (Json.obj [("data", Json.obj [("devices",
          Json.arr [Json.obj [("device", Json.str "AA"), ("model", Json.str "H6006")]])])]) =
      Except.ok ([(Json.str "AA", Json.str "H6006")], false) := rfl

example :
    fetch_extract (Json.obj [("data", Json.obj [("devices", Json.str "ab")])]) =
      Except.ok ([], false) := rfl

example :
    acceptedShape (Json.obj [("data", Json.obj [("devices", Json.str "ab")])]) = false := rfl

example :
    fetch_extract (Json.obj [("data", Json.obj [("devices", Json.num 5)])]) =
      Except.error "TypeError" := rfl

example : fetch_extract (Json.str "x") = Except.ok ([], true) := rfl

example :
    fetch_extract
        (Json.arr [Json.obj [("device", Json.str ""), ("deviceId", Json.str "X"),
          ("model", Json.str "M")]]) =
      Except.ok ([(Json.str "X", Json.str "M")], false) := rfl

end UartGoveeChecks
